import Mathlib

/-!
Shallow embedding of the core of `io_scene_vox.py` (MagicaVoxel `.vox` importer):
the voxel-grid data model, the per-voxel face-culling mesh extraction, the
byte-level chunk reader and file driver, the scene-graph resolver, the rotation
byte decoder, and the `MATL` material-record handler.  Bytes are modelled as
natural numbers, Python ints as `Int`, Python floats as `ℚ` where the code only
moves numeric values around and as `ℝ` for the trigonometric euler conversion.
Fallible Python code (struct.unpack errors, KeyError, ValueError, assert) is
modelled with `Option` / `Except`.
-/

namespace VoxImport

set_option maxRecDepth 8000

/-- Integer 3-vector, embedding the `Vec3` class of the source. -/
structure Vec3 where
  x : Int
  y : Int
  z : Int
deriving DecidableEq, Repr

/-- Packed dictionary key, embedding `Vec3._index`: `x + y*256 + z*256*256`. -/
def Vec3.index (v : Vec3) : Int :=
  v.x + v.y * 256 + v.z * 256 * 256

/-- Euler rotation triple.  The source stores these as Python 3-element
lists/tuples of numbers; numeric values are embedded as rationals. -/
abbrev Rot3 := ℚ × ℚ × ℚ

/-- Sparse voxel grid, embedding the `VoxelObject` class: the `voxels` dict is
an association list keyed by the packed index, kept in Python dict insertion
order, together with the `used_colors` list and the applied position and
rotation. -/
structure VoxelObject where
  size : Vec3
  voxels : List (Int × Vec3 × Int)
  used_colors : List Int
  position : Vec3
  rotation : Rot3
deriving DecidableEq, Repr

/-- Python dict assignment `d[k] = v`: update in place when the key exists
(keeping its position), otherwise append at the end. -/
def dictInsert (l : List (Int × Vec3 × Int)) (k : Int) (v : Vec3 × Int) :
    List (Int × Vec3 × Int) :=
  if l.any (fun p => p.1 == k) then
    l.map (fun p => if p.1 == k then (k, v) else p)
  else l ++ [(k, v)]

/-- Loop body of `VoxelObject.__init__`: store every voxel (whatever its color,
including 0) under its packed index, and append each first-seen color id to
`used_colors`. -/
def buildVox : List (Int × Int × Int × Int) → List (Int × Vec3 × Int) → List Int →
    List (Int × Vec3 × Int) × List Int
  | [], vx, uc => (vx, uc)
  | v :: rest, vx, uc =>
    let pos : Vec3 := ⟨v.1, v.2.1, v.2.2.1⟩
    let col := v.2.2.2
    buildVox rest (dictInsert vx pos.index (pos, col))
      (if uc.contains col then uc else uc ++ [col])

/-- `VoxelObject.__init__` from a voxel list and a size. -/
def VoxelObject.ofVoxels (vs : List (Int × Int × Int × Int)) (sz : Vec3) :
    VoxelObject :=
  { size := sz
    voxels := (buildVox vs [] []).1
    used_colors := (buildVox vs [] []).2
    position := ⟨0, 0, 0⟩
    rotation := (0, 0, 0) }

/-- `VoxelObject.getVox`: the color stored under the packed key, 0 when the key
is unmapped. -/
def VoxelObject.getVox (o : VoxelObject) (pos : Vec3) : Int :=
  match o.voxels.lookup pos.index with
  | some pc => pc.2
  | none => 0

/-- `VoxelObject.compareVox`: true iff the position `b` holds a voxel (its
lookup is nonzero); the color argument is accepted and ignored, as in the
source. -/
def VoxelObject.compareVox (o : VoxelObject) (colA : Int) (b : Vec3) : Bool :=
  o.getVox b != 0

/-- A quad, as the list of the 4 vertex positions its face indices reference. -/
abbrev Quad := List (Int × Int × Int)

/-- Face-emission block of `VoxelObject.generate` for one voxel, in source
order (+X, +Y, +Z, -X, -Y, -Z); each emitted quad records the 4 vertices the
source appends for it. -/
def VoxelObject.voxelFaces (o : VoxelObject) (p : Vec3) (colID : Int) :
    List Quad :=
  let x := p.x
  let y := p.y
  let z := p.z
  (if o.compareVox colID ⟨x + 1, y, z⟩ then [] else
    [[(x + 1, y, z), (x + 1, y + 1, z), (x + 1, y + 1, z + 1), (x + 1, y, z + 1)]]) ++
  (if o.compareVox colID ⟨x, y + 1, z⟩ then [] else
    [[(x + 1, y + 1, z), (x + 1, y + 1, z + 1), (x, y + 1, z + 1), (x, y + 1, z)]]) ++
  (if o.compareVox colID ⟨x, y, z + 1⟩ then [] else
    [[(x, y, z + 1), (x, y + 1, z + 1), (x + 1, y + 1, z + 1), (x + 1, y, z + 1)]]) ++
  (if o.compareVox colID ⟨x - 1, y, z⟩ then [] else
    [[(x, y, z), (x, y + 1, z), (x, y + 1, z + 1), (x, y, z + 1)]]) ++
  (if o.compareVox colID ⟨x, y - 1, z⟩ then [] else
    [[(x, y, z), (x, y, z + 1), (x + 1, y, z + 1), (x + 1, y, z)]]) ++
  (if o.compareVox colID ⟨x, y, z - 1⟩ then [] else
    [[(x, y, z), (x + 1, y, z), (x + 1, y + 1, z), (x, y + 1, z)]])

/-- Per-color voxel loop of `VoxelObject.generate`: iterate the voxel dict in
order, skip voxels of other colors, emit exposed faces. -/
def VoxelObject.quadsForColor (o : VoxelObject) (col : Int) : List Quad :=
  o.voxels.foldl
    (fun acc kv => if kv.2.2 != col then acc else acc ++ o.voxelFaces kv.2.1 kv.2.2)
    []

/-- Color loop of `VoxelObject.generate`: one quad batch per used color. -/
def VoxelObject.generateQuads (o : VoxelObject) : List (Int × List Quad) :=
  o.used_colors.map (fun c => (c, o.quadsForColor c))

/-- Python `file.read(n)`: returns up to `n` bytes (fewer at end of stream,
never an error) together with the remaining stream. -/
def fileRead (n : Nat) (s : List Nat) : List Nat × List Nat :=
  (s.take n, s.drop n)

/-- struct little-endian signed 32-bit decode of a 4-byte buffer (callers check
the length; missing bytes default to 0 here). -/
def le32 (bs : List Nat) : Int :=
  let u := bs.getD 0 0 + bs.getD 1 0 * 256 + bs.getD 2 0 * 65536 +
    bs.getD 3 0 * 16777216
  if u < 2147483648 then (u : Int) else (u : Int) - 4294967296

/-- `read_chunk`: `struct.unpack` of a 12-byte header fails when fewer than 12
bytes remain; the body is then read with `buffer.read(h_size)`, which silently
returns fewer bytes when the stream ends early and reads everything on a
negative size.  Returns the tag, the body, and the remaining stream. -/
def read_chunk (s : List Nat) : Option (List Nat × List Nat × List Nat) :=
  let (hdr, rest) := fileRead 12 s
  if hdr.length = 12 then
    let name := hdr.take 4
    let h_size := le32 ((hdr.drop 4).take 4)
    if h_size < 0 then some (name, rest, [])
    else some (name, (fileRead h_size.toNat rest).1, (fileRead h_size.toNat rest).2)
  else none

/-- `read_content`: bytearray slice-and-delete; returns up to `size` bytes and
the remaining content, never an error. -/
def read_content (c : List Nat) (size : Nat) : List Nat × List Nat :=
  (c.take size, c.drop size)

/-- Mutable locals of the `import_vox` parse loop that the `SIZE`/`XYZI`
handlers touch: the pending size (a plain Python local, unbound before the
first `SIZE` chunk), the model table and the next model id. -/
structure ParseState where
  size : Option Vec3
  models : List (Int × VoxelObject)
  mod_id : Int
deriving DecidableEq, Repr

/-- `XYZI` voxel loop: each iteration unpacks exactly 4 bytes as
`(x, y, z, color)`; a short read makes `struct.unpack` fail. -/
def parseVoxels : Nat → List Nat → Option (List (Int × Int × Int × Int) × List Nat)
  | 0, c => some ([], c)
  | n + 1, c =>
    let (bs, c2) := read_content c 4
    if bs.length = 4 then
      (parseVoxels n c2).map (fun r =>
        (((bs.getD 0 0 : Int), (bs.getD 1 0 : Int), (bs.getD 2 0 : Int),
          (bs.getD 3 0 : Int)) :: r.1, r.2))
    else none

/-- The ASCII bytes of the tag SIZE. -/
def sizeTag : List Nat := [83, 73, 90, 69]

/-- The ASCII bytes of the tag XYZI. -/
def xyziTag : List Nat := [88, 89, 90, 73]

/-- `SIZE` and `XYZI` arms of the chunk dispatch in `import_vox`; all other
tags leave this state untouched (the scene-graph and material handlers are
embedded separately and do not affect the model table). -/
def handleChunk (st : ParseState) (name : List Nat) (content : List Nat) :
    Option ParseState :=
  if name = sizeTag then
    let (bs, _) := read_content content 12
    if bs.length = 12 then
      let sz : Vec3 := ⟨le32 (bs.take 4), le32 ((bs.drop 4).take 4), le32 (bs.drop 8)⟩
      some { st with size := some sz }
    else none
  else if name = xyziTag then
    let (nb, c2) := read_content content 4
    if nb.length = 4 then
      match parseVoxels (le32 nb).toNat c2 with
      | some r =>
        match st.size with
        | some sz =>
          some { st with
            models := st.models ++ [(st.mod_id, VoxelObject.ofVoxels r.1 sz)],
            mod_id := st.mod_id + 1 }
        | none => none
      | none => none
    else none
  else some st

/-- The `while file.tell() < file_size` chunk loop; the fuel bounds the number
of iterations (each successful `read_chunk` consumes at least its 12 header
bytes, so a fuel of the stream length always suffices). -/
def parseLoop : Nat → ParseState → List Nat → Option ParseState
  | _, st, [] => some st
  | 0, _, _ :: _ => none
  | fuel + 1, st, b :: bs =>
    match read_chunk (b :: bs) with
    | some r =>
      match handleChunk st r.1 r.2.1 with
      | some st2 => parseLoop fuel st2 r.2.2
      | none => none
    | none => none

/-- File-level driver of `import_vox`: magic + version assert, MAIN tag assert,
MAIN payload-size assert, then the chunk loop; yields the model table. -/
def import_vox (file : List Nat) : Option (List (Int × VoxelObject)) :=
  let (hdr, s1) := fileRead 8 file
  if hdr.length = 8 ∧ hdr.take 4 = [86, 79, 88, 32] ∧ le32 (hdr.drop 4) = 150 then
    let (mn, s2) := fileRead 4 s1
    if mn = [77, 65, 73, 78] then
      let (nm, s3) := fileRead 8 s2
      if nm.length = 8 ∧ le32 (nm.take 4) = 0 then
        (parseLoop s3.length ⟨none, [], 0⟩ s3).map (fun st => st.models)
      else none
    else none
  else none

/-- Failure modes of `solve_scene_graph`: the explicit root check (ValueError),
a model id missing from the model table (Python KeyError), and exhaustion of
the recursion bound (Python RecursionError on a cyclic graph). -/
inductive GraphError where
  | rootMissing : GraphError
  | missingModel : Int → GraphError
  | outOfFuel : GraphError
deriving DecidableEq, Repr

/-- Shape-leaf loop of `traverse_scene_graph`: deep-copy each referenced model
and stamp the accumulated position and rotation onto it; a model id absent from
the model table aborts with a KeyError. -/
def shapeModels (m : List (Int × VoxelObject)) (pos : Vec3) (rot : Rot3) :
    List Int → Except GraphError (List VoxelObject)
  | [] => .ok []
  | mid :: rest =>
    match m.lookup mid with
    | none => .error (.missingModel mid)
    | some mo =>
      (shapeModels m pos rot rest).map
        (fun l => { mo with position := pos, rotation := rot } :: l)

/-- Componentwise vector addition of the accumulated and the node translation. -/
def vadd (a b : Vec3) : Vec3 := ⟨a.x + b.x, a.y + b.y, a.z + b.z⟩

/-- The zip-and-sum of the rotation triples: new rotation plus accumulated. -/
def radd (nw cur : Rot3) : Rot3 := (nw.1 + cur.1, nw.2.1 + cur.2.1, nw.2.2 + cur.2.2)

/-- `traverse_scene_graph` over a worklist of sibling node ids: a transform
node adds its translation and rotation to the accumulators and descends into
its single child, a group node descends into all children, a shape node emits
model instances, and an id found in none of the three mappings is silently
skipped (the source dispatch has no else branch).  Descending consumes one unit
of fuel, standing in for Python's recursion depth limit. -/
def traverseList (t : List (Int × Int × Vec3 × Rot3)) (g : List (Int × List Int))
    (s : List (Int × List Int)) (m : List (Int × VoxelObject)) :
    Nat → Vec3 → Rot3 → List Int → Except GraphError (List VoxelObject)
  | _, _, _, [] => .ok []
  | 0, _, _, _ :: _ => .error .outOfFuel
  | fuel + 1, pos, rot, nid :: rest =>
    let first : Except GraphError (List VoxelObject) :=
      match t.lookup nid with
      | some c => traverseList t g s m fuel (vadd pos c.2.1) (radd c.2.2 rot) [c.1]
      | none =>
        match g.lookup nid with
        | some children => traverseList t g s m fuel pos rot children
        | none =>
          match s.lookup nid with
          | some mids => shapeModels m pos rot mids
          | none => .ok []
    match first with
    | .error e => .error e
    | .ok l1 =>
      match traverseList t g s m (fuel + 1) pos rot rest with
      | .error e => .error e
      | .ok l2 => .ok (l1 ++ l2)
termination_by fuel _ _ ids => (fuel, ids.length)

/-- `solve_scene_graph`: the explicit root-presence check, then the traversal
from node 0 with zero accumulators; the fuel is one more than the total node
count, which suffices for every acyclic graph. -/
def solve_scene_graph (t : List (Int × Int × Vec3 × Rot3))
    (g : List (Int × List Int)) (s : List (Int × List Int))
    (m : List (Int × VoxelObject)) : Except GraphError (List VoxelObject) :=
  if (t.map (fun p => p.1)).contains 0 then
    traverseList t g s m (t.length + g.length + s.length + 1) ⟨0, 0, 0⟩ (0, 0, 0) [0]
  else .error .rootMissing

/-- Python `list.remove`: drop the first occurrence, error when absent. -/
def listRemove (l : List Nat) (a : Nat) : Option (List Nat) :=
  if l.contains a then some (l.erase a) else none

/-- `parse_rotation_matrix`: the low two bits pick the column of row 0, the
next two bits the column of row 1, and row 2 takes the remaining column; bits
4, 5 and 6 turn each row's entry into -1 instead of 1.  A duplicate or
out-of-range selector makes `list.remove` raise (modelled as `none`). -/
def parse_rotation_matrix (byte : Nat) : Option (List (List Int)) :=
  let first_row_coord := byte % 4
  let second_row_coord := byte / 4 % 4
  match listRemove [0, 1, 2] first_row_coord with
  | none => none
  | some open1 =>
    match listRemove open1 second_row_coord with
    | none => none
    | some open2 =>
      let third_row_coord := open2.headD 0
      let row0 := (List.replicate 3 (0 : Int)).set first_row_coord
        (if byte / 16 % 2 = 1 then -1 else 1)
      let row1 := (List.replicate 3 (0 : Int)).set second_row_coord
        (if byte / 32 % 2 = 1 then -1 else 1)
      let row2 := (List.replicate 3 (0 : Int)).set third_row_coord
        (if byte / 64 % 2 = 1 then -1 else 1)
      some [row0, row1, row2]

/-- `math.atan2` with the usual C library sign conventions. -/
noncomputable def atan2 (y x : ℝ) : ℝ :=
  if 0 < x then Real.arctan (y / x)
  else if x < 0 then
    (if 0 ≤ y then Real.arctan (y / x) + Real.pi else Real.arctan (y / x) - Real.pi)
  else if 0 < y then Real.pi / 2
  else if y < 0 then -(Real.pi / 2)
  else 0

/-- `rotation_to_euler`: euler XYZ radians from a 3x3 integer matrix (indexed
reads default to 0, which never happens on a 3x3 input). -/
noncomputable def rotation_to_euler (m : List (List Int)) : ℝ × ℝ × ℝ :=
  let g : Nat → Nat → ℝ := fun i j => ((m.getD i []).getD j 0 : Int)
  (atan2 (g 2 1) (g 2 2),
   atan2 (-1 * g 2 0) (Real.sqrt (g 2 1 ^ 2 + g 2 2 ^ 2)),
   atan2 (g 1 0) (g 0 0))

/-- Boolean check that a 3x3 integer matrix is a signed permutation matrix:
every row and every column holds exactly one nonzero entry, and every entry is
0, 1 or -1. -/
def isSignedPermB (m : List (List Int)) : Bool :=
  (m.length == 3) &&
  m.all (fun r => (r.length == 3) && ((r.filter (fun v => v != 0)).length == 1) &&
    r.all (fun v => (v == 0) || (v == 1) || (v == -1))) &&
  ([0, 1, 2].all fun j =>
    ((m.map (fun r => r.getD j 0)).filter (fun v => v != 0)).length == 1)

/-- Boolean check that row `i`'s single nonzero entry is -1 exactly when bit
`4 + i` of the byte is set, for each of the three rows. -/
def rowSignsB (byte : Nat) (m : List (List Int)) : Bool :=
  [0, 1, 2].all fun i =>
    ((m.getD i []).filter (fun v => v != 0)) ==
      [if byte / 2 ^ (4 + i) % 2 = 1 then (-1 : Int) else 1]

/-- ASCII digit test. -/
def isDigit (b : Nat) : Bool := 48 ≤ b && b ≤ 57

/-- Decimal value of a digit string. -/
def natOfDigits (l : List Nat) : Nat := l.foldl (fun a b => a * 10 + (b - 48)) 0

/-- Python `float(value)` on the ASCII decimal forms MagicaVoxel emits
(optional sign, digits, optional fractional part); the exact rational value is
kept instead of a double, and forms outside this grammar (exponents, inf, nan)
are not needed by the embedded claims.  Garbage raises ValueError (`none`). -/
def parseFloatQ (bs : List Nat) : Option ℚ :=
  let (sign, rest) :=
    if bs.headD 0 = 45 then ((-1 : ℚ), bs.tail)
    else if bs.headD 0 = 43 then ((1 : ℚ), bs.tail) else ((1 : ℚ), bs)
  let intPart := rest.takeWhile isDigit
  let rest2 := rest.dropWhile isDigit
  match rest2 with
  | [] => if intPart.isEmpty then none else some (sign * natOfDigits intPart)
  | 46 :: frac =>
    if frac.all isDigit && (!intPart.isEmpty || !frac.isEmpty) then
      some (sign * ((natOfDigits intPart : ℚ) +
        (natOfDigits frac : ℚ) / (10 ^ frac.length)))
    else none
  | _ => none

/-- Python list index resolution: negative indices count from the end; out of
range raises IndexError. -/
def pyIdx (len : Nat) (i : Int) : Option Nat :=
  let j := if i < 0 then i + len else i
  if 0 ≤ j ∧ j < len then some j.toNat else none

/-- The assignment `materials[i][k] = v` with Python index semantics on the
outer list (rows always have the fixed length 6, so `k` is in range). -/
def pySetNested (mats : List (List ℚ)) (i : Int) (k : Nat) (v : ℚ) :
    Option (List (List ℚ)) :=
  (pyIdx mats.length i).map (fun j => mats.set j ((mats.getD j []).set k v))

/-- The ASCII bytes of the dict keys and material kinds used by the MATL
handler. -/
def bTypeKey : List Nat := [95, 116, 121, 112, 101]

/-- ASCII of the key and kind rough. -/
def bRough : List Nat := [95, 114, 111, 117, 103, 104]

/-- ASCII of the key and kind metal. -/
def bMetal : List Nat := [95, 109, 101, 116, 97, 108]

/-- ASCII of the key alpha. -/
def bAlpha : List Nat := [95, 97, 108, 112, 104, 97]

/-- ASCII of the kind glass. -/
def bGlass : List Nat := [95, 103, 108, 97, 115, 115]

/-- ASCII of the key and kind emit. -/
def bEmit : List Nat := [95, 101, 109, 105, 116]

/-- ASCII of the key flux. -/
def bFlux : List Nat := [95, 102, 108, 117, 120]

/-- ASCII of the key sp. -/
def bSp : List Nat := [95, 115, 112]

/-- ASCII of the default kind diffuse. -/
def bDiffuse : List Nat := [95, 100, 105, 102, 102, 117, 115, 101]

/-- ASCII of the ignored key d. -/
def bD : List Nat := [95, 100]

/-- ASCII of the ignored key ior. -/
def bIor : List Nat := [95, 105, 111, 114]

/-- One iteration of the MATL dictionary loop: thread the current material
kind (updated by a `_type` entry before the key chain runs, as in the source)
and apply the `if`/`elif` chain to `materials[id - 1]`. -/
def matlStep (idm : Int) (st : List (List ℚ) × List Nat) (kv : List Nat × List Nat) :
    Option (List (List ℚ) × List Nat) :=
  let mats := st.1
  let mat_type := if kv.1 = bTypeKey then kv.2 else st.2
  if kv.1 = bRough then
    match parseFloatQ kv.2 with
    | none => none
    | some v => (pySetNested mats (idm - 1) 0 v).map (fun m2 => (m2, mat_type))
  else if kv.1 = bMetal then
    if mat_type = bMetal then
      match parseFloatQ kv.2 with
      | none => none
      | some v => (pySetNested mats (idm - 1) 1 v).map (fun m2 => (m2, mat_type))
    else some (mats, mat_type)
  else if kv.1 = bAlpha ∧ mat_type = bGlass then
    match parseFloatQ kv.2 with
    | none => none
    | some v => (pySetNested mats (idm - 1) 2 v).map (fun m2 => (m2, mat_type))
  else if kv.1 = bEmit ∧ mat_type = bEmit then
    match parseFloatQ kv.2 with
    | none => none
    | some v =>
      match pySetNested mats (idm - 1) 3 v with
      | none => none
      | some m2 => (pySetNested m2 (idm - 1) 5 1).map (fun m3 => (m3, mat_type))
  else if kv.1 = bFlux then
    match parseFloatQ kv.2 with
    | none => none
    | some v => (pySetNested mats (idm - 1) 5 v).map (fun m2 => (m2, mat_type))
  else if kv.1 = bSp then
    match parseFloatQ kv.2 with
    | none => none
    | some v => (pySetNested mats (idm - 1) 4 (v - 1)).map (fun m2 => (m2, mat_type))
  else some (mats, mat_type)

/-- The MATL chunk handler of `import_vox`: ids above 255 are skipped with
`continue` (state unchanged); otherwise the dictionary entries are folded over
the material table in on-wire order with `_diffuse` as the starting kind. -/
def applyMATL (materials : List (List ℚ)) (idm : Int)
    (mat_dict : List (List Nat × List Nat)) : Option (List (List ℚ)) :=
  if idm > 255 then some materials
  else (mat_dict.foldlM (matlStep idm) (materials, bDiffuse)).map (fun st => st.1)

/-- The default material table: 255 records of
`[roughness, metallic, glass, emission, specular, flux]`. -/
def defaultMaterials : List (List ℚ) :=
  List.replicate 255 [1 / 2, 0, 0, 0, 0, 0]

/-- First-seen deduplication of a color list, the accumulator-passing form of
the `used_colors` update loop. -/
def firstSeen (acc : List Int) : List Int → List Int
  | [] => acc
  | c :: rest => firstSeen (if acc.contains c then acc else acc ++ [c]) rest

/-- Hand-built minimal vox file: magic and version 150, MAIN header with zero
payload, one SIZE chunk declaring a 2 by 2 by 2 grid, and one XYZI chunk
listing the 8 voxels of that cube, all with color id 1. -/
def c1bytes : List Nat :=
  [86, 79, 88, 32, 150, 0, 0, 0,
   77, 65, 73, 78, 0, 0, 0, 0, 72, 0, 0, 0,
   83, 73, 90, 69, 12, 0, 0, 0, 0, 0, 0, 0,
   2, 0, 0, 0, 2, 0, 0, 0, 2, 0, 0, 0,
   88, 89, 90, 73, 36, 0, 0, 0, 0, 0, 0, 0,
   8, 0, 0, 0,
   0, 0, 0, 1, 1, 0, 0, 1, 0, 1, 0, 1, 1, 1, 0, 1,
   0, 0, 1, 1, 1, 0, 1, 1, 0, 1, 1, 1, 1, 1, 1, 1]

/-- The 8 voxel positions listed in the XYZI chunk of `c1bytes`. -/
def c1positions : List Vec3 :=
  [⟨0, 0, 0⟩, ⟨1, 0, 0⟩, ⟨0, 1, 0⟩, ⟨1, 1, 0⟩,
   ⟨0, 0, 1⟩, ⟨1, 0, 1⟩, ⟨0, 1, 1⟩, ⟨1, 1, 1⟩]

/-- Two voxels of color 1 adjacent along the +X axis. -/
def c2obj : VoxelObject := VoxelObject.ofVoxels [(0, 0, 0, 1), (1, 0, 0, 1)] ⟨2, 1, 1⟩

/-- A single isolated voxel of color 1 at the origin. -/
def c3obj : VoxelObject := VoxelObject.ofVoxels [(0, 0, 0, 1)] ⟨1, 1, 1⟩

/-- Transform nodes 0 and 1, chained: node 0 translates by (1,0,0) and points
at node 1, which translates by (0,2,0) and points at shape node 2. -/
def c4transforms : List (Int × Int × Vec3 × Rot3) :=
  [(0, (1, ⟨1, 0, 0⟩, (0, 0, 0))), (1, (2, ⟨0, 2, 0⟩, (0, 0, 0)))]

/-- Shape node 2 referencing model 0. -/
def c4shapes : List (Int × List Int) := [(2, [0])]

/-- The single model used by the nested-transform scene graph. -/
def c4model : VoxelObject := VoxelObject.ofVoxels [(0, 0, 0, 1)] ⟨1, 1, 1⟩

/-- C1: parsing the minimal vox buffer with one SIZE (2,2,2) chunk and one
XYZI chunk listing the 8 voxels of that cube, all of color 1, yields exactly
one voxel grid whose getVox returns 1 at each of the 8 listed positions and 0
at position (3,3,3); in general getVox returns 0 at every position whose
packed key is unmapped. -/
theorem c1_parse_roundtrip :
    (∀ (o : VoxelObject) (p : Vec3), o.voxels.lookup p.index = none →
      o.getVox p = 0) ∧
    (import_vox c1bytes).map (fun ms => ms.map (fun im =>
      (im.1, c1positions.map im.2.getVox, im.2.getVox ⟨3, 3, 3⟩))) =
      some [(0, [1, 1, 1, 1, 1, 1, 1, 1], 0)] := by
  constructor
  · intro o p h
    simp [VoxelObject.getVox, h]
  · decide

/-- Witness for C1: a concrete grid and position with an unmapped packed key. -/
theorem c1_parse_roundtrip_witness :
    (VoxelObject.ofVoxels [] ⟨0, 0, 0⟩).voxels.lookup (Vec3.index ⟨3, 3, 3⟩) = none ∧
    (VoxelObject.ofVoxels [] ⟨0, 0, 0⟩).getVox ⟨3, 3, 3⟩ = 0 :=
  ⟨rfl, c1_parse_roundtrip.1 (VoxelObject.ofVoxels [] ⟨0, 0, 0⟩) ⟨3, 3, 3⟩ rfl⟩

/-- C2: mesh extraction on two voxels of the same color adjacent along +X
emits exactly 10 quads in the single color-1 batch: the shared internal face
is culled on both sides and no coplanar faces are merged. -/
theorem c2_two_adjacent_voxels_ten_quads :
    c2obj.generateQuads.map (fun p => (p.1, p.2.length)) = [(1, 10)] := by
  decide

/-- C3: mesh extraction on a single isolated voxel emits exactly 6 quads with
24 vertices in total, one quad per face direction in source order, each with
the fixed winding offsets from the voxel's minimum corner. -/
theorem c3_single_voxel_six_quads :
    c3obj.generateQuads =
      [(1, [[(1, 0, 0), (1, 1, 0), (1, 1, 1), (1, 0, 1)],
            [(1, 1, 0), (1, 1, 1), (0, 1, 1), (0, 1, 0)],
            [(0, 0, 1), (0, 1, 1), (1, 1, 1), (1, 0, 1)],
            [(0, 0, 0), (0, 1, 0), (0, 1, 1), (0, 0, 1)],
            [(0, 0, 0), (0, 0, 1), (1, 0, 1), (1, 0, 0)],
            [(0, 0, 0), (1, 0, 0), (1, 1, 0), (0, 1, 0)]])] ∧
    (c3obj.generateQuads.map (fun p => (p.2.map List.length).sum)).sum = 24 := by
  constructor
  · decide
  · decide

/-- C6: when node id 0 is absent from the transform mapping, scene-graph
resolution fails with the root-missing error and produces no instances. -/
theorem c6_missing_root_error (t : List (Int × Int × Vec3 × Rot3))
    (g : List (Int × List Int)) (s : List (Int × List Int))
    (m : List (Int × VoxelObject)) :
    (t.map (fun p => p.1)).contains 0 = false →
    solve_scene_graph t g s m = .error .rootMissing := by
  intro h
  unfold solve_scene_graph
  rw [h]
  simp

/-- Witness for C6: the empty scene graph has no node 0 and errors out. -/
theorem c6_missing_root_error_witness :
    (([] : List (Int × Int × Vec3 × Rot3)).map (fun p => p.1)).contains 0 = false ∧
    solve_scene_graph [] [] [] [] = .error .rootMissing :=
  ⟨rfl, c6_missing_root_error [] [] [] [] rfl⟩

/-- Unfolding step of the traversal at a transform node: the node's
translation is added to the accumulated position and its rotation to the
accumulated rotation before descending into the single child. -/
theorem traverseList_transform_step (t : List (Int × Int × Vec3 × Rot3))
    (g s : List (Int × List Int)) (m : List (Int × VoxelObject)) (fuel : Nat)
    (pos : Vec3) (rot : Rot3) (nid child : Int) (tr : Vec3) (ro : Rot3)
    (h : t.lookup nid = some (child, tr, ro)) :
    traverseList t g s m (fuel + 1) pos rot [nid] =
      traverseList t g s m fuel (vadd pos tr) (radd ro rot) [child] := by
  rw [traverseList, h]
  cases h1 : traverseList t g s m fuel (vadd pos tr) (radd ro rot) [child] with
  | error e => simp [traverseList, h1]
  | ok l => simp [traverseList, h1]

/-- C4: resolution composes nested transforms additively — at a transform node
the translation is added to the accumulated position and the euler rotation is
added componentwise to the accumulated rotation before descending — and the
two-transform chain over shape node 2 yields exactly one instance of model 0
at position (1,2,0). -/
theorem c4_additive_composition :
    (∀ (t : List (Int × Int × Vec3 × Rot3)) (g s : List (Int × List Int))
      (m : List (Int × VoxelObject)) (fuel : Nat) (pos : Vec3) (rot : Rot3)
      (nid child : Int) (tr : Vec3) (ro : Rot3),
      t.lookup nid = some (child, tr, ro) →
      traverseList t g s m (fuel + 1) pos rot [nid] =
        traverseList t g s m fuel (vadd pos tr) (radd ro rot) [child]) ∧
    solve_scene_graph c4transforms [] c4shapes [(0, c4model)] =
      .ok [{ c4model with position := ⟨1, 2, 0⟩ }] := by
  refine ⟨fun t g s m fuel pos rot nid child tr ro h =>
    traverseList_transform_step t g s m fuel pos rot nid child tr ro h, ?_⟩
  with_unfolding_all rfl

/-- Witness for C4: the transform step at concrete node 0 of the nested
example. -/
theorem c4_additive_composition_witness :
    c4transforms.lookup 0 = some (1, ⟨1, 0, 0⟩, (0, 0, 0)) ∧
    traverseList c4transforms [] c4shapes [(0, c4model)] 2 ⟨0, 0, 0⟩ (0, 0, 0) [0] =
      traverseList c4transforms [] c4shapes [(0, c4model)] 1
        (vadd ⟨0, 0, 0⟩ ⟨1, 0, 0⟩) (radd (0, 0, 0) (0, 0, 0)) [1] :=
  ⟨rfl, c4_additive_composition.1 c4transforms [] c4shapes [(0, c4model)] 1
    ⟨0, 0, 0⟩ (0, 0, 0) 0 1 ⟨1, 0, 0⟩ (0, 0, 0) rfl⟩

/-- C5: for every rotation byte whose two 2-bit row selectors are distinct
values among 0, 1, 2 the decoder yields a signed permutation matrix whose row
signs come from bits 4, 5 and 6; byte 4 decodes to the identity permutation
and its euler angles are all zero. -/
theorem c5_rotation_byte_decode :
    (∀ b : Fin 256, (b : Nat) % 4 < 3 → (b : Nat) / 4 % 4 < 3 →
      (b : Nat) % 4 ≠ (b : Nat) / 4 % 4 →
      ((parse_rotation_matrix b).map fun mtx =>
        isSignedPermB mtx && rowSignsB b mtx) = some true) ∧
    parse_rotation_matrix 4 = some [[1, 0, 0], [0, 1, 0], [0, 0, 1]] ∧
    rotation_to_euler [[1, 0, 0], [0, 1, 0], [0, 0, 1]] = (0, 0, 0) := by
  refine ⟨by decide, by decide, ?_⟩
  have hs : Real.sqrt (((0 : Int) : ℝ) ^ 2 + ((1 : Int) : ℝ) ^ 2) = 1 := by
    norm_num
  unfold rotation_to_euler
  norm_num [List.getD, hs]
  unfold atan2
  norm_num [Real.arctan_zero]

/-- Witness for C5: byte 4 has distinct in-range selectors and passes the
signed-permutation and row-sign checks. -/
theorem c5_rotation_byte_decode_witness :
    ((parse_rotation_matrix 4).map fun mtx =>
      isSignedPermB mtx && rowSignsB 4 mtx) = some true :=
  c5_rotation_byte_decode.1 ⟨4, by norm_num⟩ (by decide) (by decide) (by decide)

/-- Leaf loop failure: when some referenced model id in a shape node is absent
from the model table, the loop stops at the first such id with a KeyError. -/
theorem shapeModels_missing (m : List (Int × VoxelObject)) (pos : Vec3)
    (rot : Rot3) : ∀ mids : List Int, (∃ mid ∈ mids, m.lookup mid = none) →
    ∃ mid2, shapeModels m pos rot mids = .error (.missingModel mid2) := by
  intro mids
  induction mids with
  | nil =>
    rintro ⟨mid, hmem, _⟩
    cases hmem
  | cons hd tl ih =>
    rintro ⟨mid, hmem, hnone⟩
    cases hm : m.lookup hd with
    | none => exact ⟨hd, by simp [shapeModels, hm]⟩
    | some mo =>
      have hmem2 : mid ∈ tl := by
        rcases List.mem_cons.mp hmem with he | h2
        · rw [he, hm] at hnone
          cases hnone
        · exact h2
      obtain ⟨mid2, hm2⟩ := ih ⟨mid, hmem2, hnone⟩
      exact ⟨mid2, by simp [shapeModels, hm, hm2, Except.map]⟩

/-- C7 counterexample: a root transform whose child id 1 appears in none of the
three mappings resolves without any error to an empty instance list, instead of
aborting. -/
theorem c7_counterexample :
    solve_scene_graph [(0, (1, ⟨5, 0, 0⟩, (0, 0, 0)))] [] [] [] = .ok [] := by
  with_unfolding_all rfl

/-- C7 (amended): a shape-referenced model id absent from the model table is
fatal (the traversal aborts with a KeyError), but a child id absent from all of
the transform, group and shape mappings is silently skipped, contributing no
instances and no error. -/
theorem c7_amended_missing_ids :
    (∀ (t : List (Int × Int × Vec3 × Rot3)) (g s : List (Int × List Int))
      (m : List (Int × VoxelObject)) (fuel : Nat) (pos : Vec3) (rot : Rot3)
      (nid : Int),
      t.lookup nid = none → g.lookup nid = none → s.lookup nid = none →
      traverseList t g s m (fuel + 1) pos rot [nid] = .ok []) ∧
    (∀ (t : List (Int × Int × Vec3 × Rot3)) (g s : List (Int × List Int))
      (m : List (Int × VoxelObject)) (fuel : Nat) (pos : Vec3) (rot : Rot3)
      (nid : Int) (mids : List Int),
      t.lookup nid = none → g.lookup nid = none → s.lookup nid = some mids →
      (∃ mid ∈ mids, m.lookup mid = none) →
      ∃ mid2, traverseList t g s m (fuel + 1) pos rot [nid] =
        .error (.missingModel mid2)) := by
  constructor
  · intro t g s m fuel pos rot nid ht hg hs
    rw [traverseList, ht, hg, hs]
    simp [traverseList]
  · intro t g s m fuel pos rot nid mids ht hg hs hex
    obtain ⟨mid2, hm2⟩ := shapeModels_missing m pos rot mids hex
    refine ⟨mid2, ?_⟩
    rw [traverseList]
    simp only [ht, hg, hs, hm2]

/-- Witness for C7: node 7 is absent from the empty mappings and is skipped;
shape node 0 references model 3 which is absent from the empty model table and
the traversal errors. -/
theorem c7_amended_missing_ids_witness :
    traverseList [] [] [] [] 1 ⟨0, 0, 0⟩ (0, 0, 0) [7] = .ok [] ∧
    ∃ mid2, traverseList [] [] [(0, [3])] [] 1 ⟨0, 0, 0⟩ (0, 0, 0) [0] =
      .error (.missingModel mid2) :=
  ⟨c7_amended_missing_ids.1 [] [] [] [] 0 ⟨0, 0, 0⟩ (0, 0, 0) 7 rfl rfl rfl,
   c7_amended_missing_ids.2 [] [] [(0, [3])] [] 0 ⟨0, 0, 0⟩ (0, 0, 0) 0 [3]
     rfl rfl rfl ⟨3, by simp, rfl⟩⟩

/-- C8 counterexample: a stream holding a complete 12-byte header that declares
a 5-byte payload but no body bytes is accepted by read_chunk with an empty
body, instead of failing. -/
theorem c8_counterexample :
    read_chunk [65, 66, 67, 68, 5, 0, 0, 0, 0, 0, 0, 0] =
      some ([65, 66, 67, 68], [], []) ∧
    le32 [5, 0, 0, 0] = 5 :=
  ⟨rfl, rfl⟩

/-- C8 (amended): read_chunk fails exactly when the stream holds fewer than
the 12 header bytes; given a full header with a nonnegative declared payload
length it always succeeds, returning up to that many body bytes — a body cut
short by the end of the stream is silently truncated, not an error. -/
theorem c8_amended_silent_truncation (s : List Nat) :
    (read_chunk s = none ↔ s.length < 12) ∧
    (12 ≤ s.length → 0 ≤ le32 ((s.drop 4).take 4) →
      read_chunk s = some (s.take 4,
        (s.drop 12).take (le32 ((s.drop 4).take 4)).toNat,
        (s.drop 12).drop (le32 ((s.drop 4).take 4)).toNat)) := by
  have hname : (s.take 12).take 4 = s.take 4 := by
    rw [List.take_take]
    norm_num
  have hsz : ((s.take 12).drop 4).take 4 = (s.drop 4).take 4 := by
    rw [List.drop_take, List.take_take]
    norm_num
  constructor
  · constructor
    · intro h
      by_contra hlt
      push_neg at hlt
      have hlen : (s.take 12).length = 12 := by
        rw [List.length_take]
        omega
      rw [read_chunk] at h
      simp only [fileRead, hlen, if_true] at h
      split at h <;> simp at h
    · intro h
      have hlen : (s.take 12).length ≠ 12 := by
        rw [List.length_take]
        omega
      rw [read_chunk]
      simp only [fileRead, hlen]
      simp
  · intro h12 hge
    have hlen : (s.take 12).length = 12 := by
      rw [List.length_take]
      omega
    rw [read_chunk]
    simp only [fileRead, hlen, if_true, hname, hsz]
    rw [if_neg (by omega)]

/-- Witness for C8: a 13-byte stream whose header declares a 4-byte payload of
which only 1 byte is present. -/
theorem c8_amended_silent_truncation_witness :
    read_chunk [65, 66, 67, 68, 4, 0, 0, 0, 0, 0, 0, 0, 9] =
      some ([65, 66, 67, 68], [9], []) := by
  have h := (c8_amended_silent_truncation
    [65, 66, 67, 68, 4, 0, 0, 0, 0, 0, 0, 0, 9]).2 (by norm_num) (by decide)
  simpa using h

/-- Color accumulation of the voxel constructor loop equals the first-seen
deduplication of the voxel colors. -/
theorem buildVox_used_colors :
    ∀ (vs : List (Int × Int × Int × Int)) (vx : List (Int × Vec3 × Int))
      (uc : List Int),
    (buildVox vs vx uc).2 = firstSeen uc (vs.map fun v => v.2.2.2) := by
  intro vs
  induction vs with
  | nil => intro vx uc; rfl
  | cons v rest ih =>
    intro vx uc
    rw [buildVox, List.map_cons, firstSeen]
    exact ih _ _

/-- Membership in the first-seen deduplication. -/
theorem firstSeen_mem :
    ∀ (l acc : List Int) (x : Int), x ∈ firstSeen acc l ↔ x ∈ acc ∨ x ∈ l := by
  intro l
  induction l with
  | nil => intro acc x; simp [firstSeen]
  | cons c rest ih =>
    intro acc x
    by_cases h : acc.contains c
    · have hc : c ∈ acc := by simpa using h
      rw [firstSeen, if_pos h, ih]
      simp only [List.mem_cons]
      constructor
      · rintro (ha | hr)
        · exact Or.inl ha
        · exact Or.inr (Or.inr hr)
      · rintro (ha | he | hr)
        · exact Or.inl ha
        · exact Or.inl (he ▸ hc)
        · exact Or.inr hr
    · rw [firstSeen, if_neg h, ih]
      simp only [List.mem_append, List.mem_singleton, List.mem_cons]
      tauto

/-- The first-seen deduplication never repeats an element. -/
theorem firstSeen_nodup :
    ∀ (l acc : List Int), acc.Nodup → (firstSeen acc l).Nodup := by
  intro l
  induction l with
  | nil => intro acc h; exact h
  | cons c rest ih =>
    intro acc h
    by_cases hc : acc.contains c
    · rw [firstSeen, if_pos hc]
      exact ih _ h
    · rw [firstSeen, if_neg hc]
      refine ih _ ?_
      have hnc : c ∉ acc := by simpa using hc
      simp [List.nodup_append, h, hnc]

/-- C9 counterexample: a voxel entry with color id 0 is stored in the grid
mapping and 0 is appended to used_colors, contradicting the claimed filter. -/
theorem c9_counterexample :
    (VoxelObject.ofVoxels [(0, 0, 0, 0)] ⟨1, 1, 1⟩).used_colors = [0] ∧
    (VoxelObject.ofVoxels [(0, 0, 0, 0)] ⟨1, 1, 1⟩).voxels.lookup 0 =
      some (⟨0, 0, 0⟩, 0) :=
  ⟨rfl, rfl⟩

/-- C9 (amended): the constructor stores every listed voxel, color 0 included;
used_colors is the distinct list of all occurring color ids (0 included when
present) in first-seen order; a lookup at a stored color-0 entry still returns
0, because the stored color is itself 0. -/
theorem c9_amended_color_zero_stored :
    (∀ (vs : List (Int × Int × Int × Int)) (sz : Vec3),
      (VoxelObject.ofVoxels vs sz).used_colors =
        firstSeen [] (vs.map fun v => v.2.2.2)) ∧
    (∀ (vs : List (Int × Int × Int × Int)) (sz : Vec3),
      (VoxelObject.ofVoxels vs sz).used_colors.Nodup) ∧
    (∀ (vs : List (Int × Int × Int × Int)) (sz : Vec3) (c : Int),
      c ∈ (VoxelObject.ofVoxels vs sz).used_colors ↔
        c ∈ vs.map fun v => v.2.2.2) ∧
    (∀ (o : VoxelObject) (p : Vec3) (c : Int),
      o.voxels.lookup p.index = some (p, c) → c = 0 → o.getVox p = 0) := by
  have h1 : ∀ (vs : List (Int × Int × Int × Int)) (sz : Vec3),
      (VoxelObject.ofVoxels vs sz).used_colors =
        firstSeen [] (vs.map fun v => v.2.2.2) := by
    intro vs sz
    exact buildVox_used_colors vs [] []
  refine ⟨h1, ?_, ?_, ?_⟩
  · intro vs sz
    rw [h1]
    exact firstSeen_nodup _ _ List.nodup_nil
  · intro vs sz c
    rw [h1, firstSeen_mem]
    simp
  · intro o p c hl hc
    simp [VoxelObject.getVox, hl, hc]

/-- Witness for C9: the color-0 entry of a concrete grid is stored and its
lookup returns 0. -/
theorem c9_amended_color_zero_stored_witness :
    (VoxelObject.ofVoxels [(0, 0, 0, 0)] ⟨1, 1, 1⟩).voxels.lookup
      (Vec3.index ⟨0, 0, 0⟩) = some (⟨0, 0, 0⟩, 0) ∧
    (VoxelObject.ofVoxels [(0, 0, 0, 0)] ⟨1, 1, 1⟩).getVox ⟨0, 0, 0⟩ = 0 :=
  ⟨rfl, c9_amended_color_zero_stored.2.2.2
    (VoxelObject.ofVoxels [(0, 0, 0, 0)] ⟨1, 1, 1⟩) ⟨0, 0, 0⟩ 0 rfl rfl⟩

/-- C10: a MATL record with material id 0 is not skipped (only ids above 255
are): its properties land at Python index -1, the last of the 255 material
records, overwriting the material of palette color 255; ids above 255 leave
the table untouched. -/
theorem c10_matl_id_zero :
    applyMATL defaultMaterials 0 [(bRough, [48, 46, 50, 53])] =
      some (defaultMaterials.set 254 [1 / 4, 0, 0, 0, 0, 0]) ∧
    (∀ i : Int, 255 < i →
      applyMATL defaultMaterials i [(bRough, [48, 46, 50, 53])] =
        some defaultMaterials) := by
  constructor
  · with_unfolding_all rfl
  · intro i h
    simp [applyMATL, h]

/-- Witness for C10: id 256 is skipped. -/
theorem c10_matl_id_zero_witness :
    applyMATL defaultMaterials 256 [(bRough, [48, 46, 50, 53])] =
      some defaultMaterials :=
  c10_matl_id_zero.2 256 (by norm_num)

end VoxImport
